import Mathlib

/-!
Verification of the napari shapes-layer core against its specification.

The Python sources under `napari/layers/_shapes_layer/model.py`,
`napari/layers/utils/transform_utils.py`, `napari/layers/transforms.py`,
`gui/layers/_rectangles_layer.py` and `gui/layers/_box_layer.py` are embedded
shallowly below.  Machine floats are modelled by `ℚ` (exact) except for the
trigonometric affine composition, which is modelled over `ℝ`.  Python
exceptions are modelled by `Except String`; numpy arrays by `List`.

The helper module `napari.util` (`is_permutation`, `inside_triangles`) and the
class `ShapesData` (`napari/layers/_shapes_layer/utils.py`) are not part of the
source tree; the definitions that stand in for them are modelled from the
specification text and are marked `Modelled from the spec:` in their doc
comments.
-/

namespace NapariSpec

/-- Coordinate pairs, exact-rational model of the float coordinates. -/
abbrev Pt := ℚ × ℚ

/-- Boolean-mask selection `xs[mask]` for a mask of the same length as `xs`
(the numpy result rows in order). -/
def maskFilter {α : Type} (xs : List α) (mask : List Bool) : List α :=
  ((xs.zip mask).filter (fun p => p.2)).map (fun p => p.1)

/-- Boolean indexing as numpy performs it: indexing an array with a boolean
mask of a different length raises `IndexError`, modelled by `none`. -/
def npBoolIndex {α : Type} (xs : List α) (mask : List Bool) : Option (List α) :=
  if xs.length = mask.length then some (maskFilter xs mask) else none

/-- First index of `v` in `xs`; models `list.index` and the first-occurrence
indices of `np.unique(..., return_index=True)`.  Returns `xs.length` when `v`
is absent. -/
def firstIdx (xs : List Nat) (v : Nat) : Nat :=
  match xs with
  | [] => 0
  | x :: t => if x = v then 0 else firstIdx t v + 1

/-- Sorted list of the distinct values of `xs`; models the values returned by
`np.unique` on an integer array. -/
def npUniqueVals (xs : List Nat) : List Nat :=
  (List.range (xs.foldr max 0 + 1)).filter (fun v => xs.contains v)

/-- Truncation toward zero; models Python `int()` and numpy `.astype(int)` on
a (finite) float. -/
def pyInt (q : ℚ) : Int := Int.tdiv q.num (q.den : Int)

/-- Right-justify a decimal string to width `w` with spaces. -/
def padLeft (w : Nat) (s : String) : String :=
  String.mk (List.replicate (w - s.length) ' ') ++ s

/-- Rendering of a 1-D integer numpy array by `str`: elements right-justified
to a common width, separated by single spaces, wrapped in square brackets. -/
def npIntArrayToString (xs : List Int) : String :=
  let strs := xs.map (fun i => toString i)
  let w := strs.foldl (fun m s => max m s.length) 0
  "[" ++ String.intercalate " " (strs.map (padLeft w)) ++ "]"

/-- Modelled from the spec: `napari.util.is_permutation` (not in the source
tree).  Per §3/§7 of the spec, `z_order` must be "a permutation of
`0..count-1`"; the check accepts exactly the sequences of length `count`
containing every value `0..count-1`. -/
def is_permutation (z : List Nat) (n : Nat) : Bool :=
  z.length == n && (List.range n).all (fun i => z.contains i)

/-- Modelled from the spec: `napari.util.inside_triangles` (not in the source
tree), the "vectorized same-side test for a batch of (3,2) triangles offset so
the query point is the origin", applied here to one triangle: whether the
origin lies in triangle `a b c` (same sign of the three edge cross products). -/
def originInTri (a b c : Pt) : Bool :=
  let cross : Pt → Pt → ℚ := fun u v => u.1 * v.2 - u.2 * v.1
  let d1 := cross (b - a) (-a)
  let d2 := cross (c - b) (-b)
  let d3 := cross (a - c) (-c)
  (d1 ≥ 0 && d2 ≥ 0 && d3 ≥ 0) || (d1 ≤ 0 && d2 ≤ 0 && d3 ≤ 0)

/-- Modelled from the spec: `ShapesData._expand_box` (not in the source tree).
Per §3 the expanded box is the corner/edge-midpoint interleaved 9-point array
"4 corners + 4 edge-midpoints + a center": indices 0,2,4,6 are the corners
(0 the componentwise minimum, 4 the componentwise maximum, as used by
`_shapes_in_box` via `[[0, 4]]`), odd indices the edge midpoints, 8 the
center. -/
def expandBox9 (box : Pt × Pt) : List Pt :=
  let tl : Pt := (min box.1.1 box.2.1, min box.1.2 box.2.2)
  let tr : Pt := (max box.1.1 box.2.1, min box.1.2 box.2.2)
  let br : Pt := (max box.1.1 box.2.1, max box.1.2 box.2.2)
  let bl : Pt := (min box.1.1 box.2.1, max box.1.2 box.2.2)
  let mid : Pt → Pt → Pt := fun p q => ((p.1 + q.1) / 2, (p.2 + q.2) / 2)
  [tl, mid tl tr, tr, mid tr br, br, mid br bl, bl, mid bl tl, mid tl br]

/-- Modelled from the spec: the shape storage object `ShapesData`
(`napari/layers/_shapes_layer/utils.py`, not in the source tree).  Fields per
§3: `objects` the table of kind names, `id` the per-shape kind index,
`vertices`/`index` the raw per-shape vertex buffer with its owning-shape tags,
`mesh_vertices`/`mesh_faces` the triangulated mesh buffers,
`mesh_faces_index` the per-face `(shape-index, face-group, role)` tags with
role fill=0 / border=1, and `selected_box` the cached 10-point selection box
(or `None`). -/
structure ShapesData where
  objects : List String
  id : List Nat
  vertices : List Pt
  index : List Nat
  thickness : List ℚ
  mesh_vertices : List Pt
  mesh_faces : List (Nat × Nat × Nat)
  mesh_faces_index : List (Nat × Nat × Nat)
  selected_box : Option (List Pt)
deriving DecidableEq

/-- Number of shapes held (`ShapesData.count`): one entry of `id` per shape. -/
def ShapesData.count (d : ShapesData) : Nat := d.id.length

/-- Modelled from the spec: `ShapesData.select_box` (§4.2): computes and
caches the union bounding box of the selected shapes' vertices as the 10-point
handle array (the 9-point expanded box plus "a rotation-handle point offset
above the top edge", modelled at half the box height above the top-edge
midpoint); an empty selection clears it to `None`. -/
def ShapesData.selectBoxFor (d : ShapesData) (sel : List Nat) : ShapesData :=
  if sel.isEmpty then { d with selected_box := none }
  else
    let pts := maskFilter d.vertices (d.index.map (fun s => sel.contains s))
    match pts with
    | [] => { d with selected_box := none }
    | p :: rest =>
      let lo := rest.foldl (fun acc q => (min acc.1 q.1, min acc.2 q.2)) p
      let hi := rest.foldl (fun acc q => (max acc.1 q.1, max acc.2 q.2)) p
      let box9 := expandBox9 (lo, hi)
      let tm := box9.getD 1 (0, 0)
      let center := box9.getD 8 (0, 0)
      { d with selected_box := some (box9 ++ [tm + (tm - center)]) }

/-- State of the `Shapes` layer controller
(`napari/layers/_shapes_layer/model.py`): the display bookkeeping, z-order,
selection and interaction-mode fields of the Python object that the claims
touch.  Rendering pushes to the vispy node are external effects and are not
part of the state. -/
structure ShapesLayer where
  data : ShapesData
  show_meshes : List Bool
  show_objects : List (Bool × Bool)
  mesh_color_array : List (ℚ × ℚ × ℚ × ℚ)
  face_color_array : List (ℚ × ℚ × ℚ × ℚ)
  edge_color_array : List (ℚ × ℚ × ℚ × ℚ)
  face_counts : List Nat
  z_order : List Nat
  z_order_faces : List Nat
  vertex_size : ℚ
  selected_shapes : List Nat
  selected_shapes_stored : List Nat
  hover_shapes : Option Nat × Option Nat
  hover_shapes_stored : Option Nat × Option Nat
  highlight : Bool
  mode : String
  cursor : String
  interactive : Bool
  help : String
  status : String
deriving DecidableEq

/-- The `Shapes.mode` setter (model.py lines 192-233).  Returns the updated
layer together with the list of emitted events; `raise ValueError` is
`Except.error`.  An assignment of the current mode returns immediately. -/
def setMode (l : ShapesLayer) (mode : String) : Except String (ShapesLayer × List String) :=
  if mode = l.mode then .ok (l, [])
  else
    let old_mode := l.mode
    let upd : Except String ShapesLayer :=
      if mode = "select" then
        .ok { l with cursor := "pointing", interactive := false,
                     help := "hold <space> to pan/zoom", status := mode, mode := mode }
      else if mode = "direct" then
        .ok { l with cursor := "pointing", interactive := false,
                     help := "hold <space> to pan/zoom", status := mode, mode := mode }
      else if mode = "pan/zoom" then
        .ok { l with cursor := "standard", interactive := true,
                     help := "", status := mode, mode := mode }
      else if mode = "add_rectangle" then
        .ok { l with cursor := "cross", interactive := false,
                     help := "hold <space> to pan/zoom", status := mode, mode := mode }
      else .error "Mode not recongnized"
    match upd with
    | .error e => .error e
    | .ok l1 =>
      let l2 :=
        if mode = "direct" ∧ old_mode = "select" then
          { l1 with data := l1.data.selectBoxFor [] }
        else if mode = "select" ∧ old_mode = "direct" then
          { l1 with data := l1.data.selectBoxFor l1.selected_shapes }
        else
          let l3 := { l1 with selected_shapes := [], data := l1.data.selectBoxFor [] }
          if l3.highlight then
            { l3 with highlight := false, selected_shapes_stored := [],
                      hover_shapes_stored := (none, none) }
          else l3
      .ok (l2, ["mode"])

/-- The `Shapes.get_message` status formatter (model.py lines 795-820):
swaps the first two coordinates, truncates to integers, prints the numpy
array and the layer name, then appends the shape and, nested under it, the
vertex hit-test results. -/
def get_message (name : String) (coord : List ℚ) (value : Option Nat × Option Nat) : String :=
  let coord_shift := (coord.set 0 ((pyInt (coord.getD 1 0) : ℚ))).set 1
      ((pyInt (coord.getD 0 0) : ℚ))
  let msg := npIntArrayToString (coord_shift.map pyInt) ++ ", " ++ name
  match value.1 with
  | none => msg
  | some s =>
    let msg := msg ++ ", shape " ++ toString s
    match value.2 with
    | none => msg
    | some j => msg ++ ", vertex " ++ toString j

/-- Recomputation of `_z_order_faces` by the `z_order` setter (model.py lines
177-182): `np.unique(mesh_faces_index[:,0], return_index=True)` gives the
first-occurrence index of each shape's face block, and the blocks are
concatenated in z-order order.  The numpy `idx[z]` lookups are totalised with
default `0`; on mesh states satisfying `MeshContig` (the reachable ones) the
defaults are never hit and the value agrees with the numpy computation. -/
def zOrderFacesFor (l : ShapesLayer) (z : List Nat) : List Nat :=
  if z.length = 0 then []
  else
    let owners := l.data.mesh_faces_index.map (fun t => t.1)
    let idx := (npUniqueVals owners).map (firstIdx owners)
    (z.map (fun zi => (List.range (l.face_counts.getD zi 0)).map
      (fun k => idx.getD zi 0 + k))).flatten

/-- The `Shapes.z_order` setter (model.py lines 169-184): validates that the
assigned sequence is a permutation of `0..count-1` before any assignment and
raises `ValueError` otherwise; on success stores the sequence and recomputes
`_z_order_faces`. -/
def setZOrder (l : ShapesLayer) (z : List Nat) : Except String ShapesLayer :=
  if ¬ is_permutation z l.data.count then .error "z_order is not permutation"
  else .ok { l with z_order := z, z_order_faces := zOrderFacesFor l z }

/-- Contiguity invariant of the mesh bookkeeping (spec §3/§8): the
`mesh_faces_index[:,0]` column is the concatenation of one nonempty block per
shape, in shape order, and `_face_counts` records the block lengths. -/
def blocksOf (counts : List Nat) : List Nat :=
  (List.range counts.length).flatMap (fun s => List.replicate (counts.getD s 0) s)

def MeshContig (l : ShapesLayer) : Prop :=
  l.face_counts.length = l.data.count ∧
  (∀ c ∈ l.face_counts, 0 < c) ∧
  l.data.mesh_faces_index.map (fun t => t.1) = blocksOf l.face_counts

instance (l : ShapesLayer) : Decidable (MeshContig l) := by
  unfold MeshContig; infer_instance

/-- Modelled from the spec: `ShapesData.remove_one_shape` (§4.2 `remove`):
"deletes all mesh entries tagged with that shape index, shifts tags for all
shapes with higher index down by one"; the per-shape arrays (`id`,
`thickness`) and the raw vertex buffer are compacted accordingly.  With
`renumber := false` (the edit path) only the entries are deleted and no tag is
shifted.  Compaction of `mesh_vertices` and renumbering of the face vertex
references are not modelled: no claim depends on the mesh vertex buffer after
a removal. -/
def removeOneShapeData (d : ShapesData) (index : Nat) (renumber : Bool) : ShapesData :=
  let keepF := d.mesh_faces_index.map (fun t => t.1 != index)
  let faces2 := maskFilter d.mesh_faces keepF
  let facesIdx2 := maskFilter d.mesh_faces_index keepF
  let keepV := d.index.map (fun s => s != index)
  let verts2 := maskFilter d.vertices keepV
  let rawIdx2 := maskFilter d.index keepV
  if renumber then
    { d with
      id := d.id.eraseIdx index,
      thickness := d.thickness.eraseIdx index,
      vertices := verts2,
      index := rawIdx2.map (fun s => if index < s then s - 1 else s),
      mesh_faces := faces2,
      mesh_faces_index := facesIdx2.map (fun t =>
        (if index < t.1 then t.1 - 1 else t.1, t.2.1, t.2.2)) }
  else
    { d with vertices := verts2, index := rawIdx2,
             mesh_faces := faces2, mesh_faces_index := facesIdx2 }

/-- The layer-side `Shapes._remove_one_shape` (model.py lines 333-345): the
face owner column is captured before the data removal, then with `renumber`
the z-order is compacted (`z_order[z_order != index]`, entries above `index`
decremented), the per-shape arrays are deleted at `index`, and the per-face
arrays are filtered by the captured owner column. -/
def removeOneShapeLayer (l : ShapesLayer) (index : Nat) (renumber : Bool) : ShapesLayer :=
  let faces_indices := l.data.mesh_faces_index.map (fun t => t.1)
  let keep := faces_indices.map (fun s => s != index)
  let d2 := removeOneShapeData l.data index renumber
  if renumber then
    { l with
      data := d2,
      z_order := (l.z_order.filter (fun j => j ≠ index)).map
        (fun j => if index < j then j - 1 else j),
      face_counts := l.face_counts.eraseIdx index,
      face_color_array := l.face_color_array.eraseIdx index,
      edge_color_array := l.edge_color_array.eraseIdx index,
      show_objects := l.show_objects.eraseIdx index,
      show_meshes := maskFilter l.show_meshes keep,
      mesh_color_array := maskFilter l.mesh_color_array keep }
  else
    { l with data := d2,
             show_meshes := maskFilter l.show_meshes keep,
             mesh_color_array := maskFilter l.mesh_color_array keep }

/-- Modelled from the spec: `ShapesData.remove_all_shapes` (§4.2
`remove_all`): clears all buffers to empty. -/
def removeAllShapesData (d : ShapesData) : ShapesData :=
  { d with
    id := [], vertices := [], index := [], thickness := [],
    mesh_vertices := [], mesh_faces := [], mesh_faces_index := [] }

/-- `Shapes.remove_shapes` called with a single integer index (model.py lines
311-331).  The guard on line 315 is `if index==True:` and the Python integer
`1` compares equal to `True`, so an integer index of 1 takes the remove-all
branch: all buffers cleared, the empty `z_order` re-assigned through the
setter, `show_objects` cleared after it.  Any other integer clears the
selection, removes the one shape with renumbering and re-runs the `z_order`
setter on the compacted order. -/
def removeShapesInt (l : ShapesLayer) (index : Nat) : Except String ShapesLayer :=
  let l0 := { l with selected_shapes := [] }
  if index = 1 then
    let l1 := { l0 with
      data := removeAllShapesData l0.data,
      show_meshes := [], mesh_color_array := [], face_color_array := [],
      edge_color_array := [], face_counts := [] }
    match setZOrder l1 [] with
    | .error e => .error e
    | .ok l2 => .ok { l2 with show_objects := [] }
  else
    let l1 := removeOneShapeLayer l0 index true
    setZOrder l1 l1.z_order

theorem pyInt_intCast (z : Int) : pyInt (z : ℚ) = z := by
  simp [pyInt]

theorem perm_range_of_nodup_subset_length {z : List Nat} {n : Nat}
    (h1 : z.Nodup) (h2 : ∀ x ∈ z, x < n) (h3 : z.length = n) :
    z.Perm (List.range n) := by
  have hs : z ⊆ List.range n := fun x hx => List.mem_range.mpr (h2 x hx)
  exact (List.subperm_of_subset h1 hs).perm_of_length_le (by simp [h3])

theorem is_permutation_iff_perm (z : List Nat) (n : Nat) :
    is_permutation z n = true ↔ z.Perm (List.range n) := by
  constructor
  · intro h
    simp only [is_permutation, Bool.and_eq_true, beq_iff_eq, List.all_eq_true] at h
    obtain ⟨hlen, hmem⟩ := h
    have hsub : List.range n ⊆ z := by
      intro x hx
      have := hmem x hx
      simpa using this
    have hsp := List.subperm_of_subset (List.nodup_range n) hsub
    exact (hsp.perm_of_length_le (by simp [hlen])).symm
  · intro h
    simp only [is_permutation, Bool.and_eq_true, beq_iff_eq, List.all_eq_true]
    refine ⟨by simpa using h.length_eq, fun i hi => ?_⟩
    have : i ∈ List.range n := hi
    simpa using h.mem_iff.mpr this

/-- C2: assigning `layer.z_order` a sequence that is not a permutation of
`0..count-1` raises the validation error before any field is assigned (the
exception carries no mutated state), and assigning a valid permutation
succeeds, stores it, recomputes `_z_order_faces` and changes nothing else.
The `MeshContig` hypothesis restricts to well-formed mesh states, on which
the totalised face recomputation agrees with the numpy one. -/
theorem z_order_setter_validates (l : ShapesLayer) (z : List Nat)
    (_hinv : MeshContig l) :
    (¬ z.Perm (List.range l.data.count) →
        setZOrder l z = .error "z_order is not permutation") ∧
    (z.Perm (List.range l.data.count) →
        ∃ zf, setZOrder l z = .ok { l with z_order := z, z_order_faces := zf }) := by
  constructor
  · intro hnp
    have : ¬ is_permutation z l.data.count = true := by
      rw [is_permutation_iff_perm]; exact hnp
    simp [setZOrder, this]
  · intro hp
    have : is_permutation z l.data.count = true := (is_permutation_iff_perm z _).mpr hp
    exact ⟨zOrderFacesFor l z, by simp [setZOrder, this]⟩

/-- First index of a string in a list; models Python `list.index` on the
`objects` kind table. -/
def firstIdxStr (xs : List String) (v : String) : Nat :=
  match xs with
  | [] => 0
  | x :: t => if x = v then 0 else firstIdxStr t v + 1

/-- Modelled from the spec: `ShapesData._add_polygon` / `_add_path` (§4.2):
re-triangulates the given vertices and appends mesh entries tagged
`(index, group, role)`, role fill=0 for the interior and border=1 for the
stroked outline.  The interior triangulation is modelled as a fan (the spec
fixes only that a triangulation of the vertices is appended) and the border
stroke as one quad (two triangles) per outline segment over duplicated
outline vertices; a path (`withFill = false`) gets no interior faces. -/
def ShapesData.addShapeMesh (d : ShapesData) (verts : List Pt) (index : Nat)
    (withFill : Bool) : ShapesData :=
  let base := d.mesh_vertices.length
  let n := verts.length
  let fillFaces := if withFill then
      (List.range (n - 2)).map (fun i => (base, base + i + 1, base + i + 2))
    else []
  let borderBase := base + n
  let borderFaces := (List.range n).flatMap (fun i =>
    [(borderBase + i, borderBase + (i + 1) % n, borderBase + n + i),
     (borderBase + (i + 1) % n, borderBase + n + i, borderBase + n + (i + 1) % n)])
  { d with
    vertices := d.vertices ++ verts,
    index := d.index ++ List.replicate n index,
    mesh_vertices := d.mesh_vertices ++ verts ++ verts ++ verts,
    mesh_faces := d.mesh_faces ++ fillFaces ++ borderFaces,
    mesh_faces_index := d.mesh_faces_index
      ++ fillFaces.map (fun _ => (index, 0, 0))
      ++ borderFaces.map (fun _ => (index, 1, 1)) }

/-- `Shapes.edit_shape` (model.py lines 347-392): looks up the shape kind; for
an ellipse it returns immediately with every field untouched (the
re-triangulation is not implemented); for the other kinds it removes the old
mesh entries without renumbering, appends the re-triangulated mesh (a
rectangle is first reclassified as a polygon), rebuilds the per-face
bookkeeping for the edited shape and re-runs the z-order setter.  The Python
`if self.show_objects[index, 0] is False` comparisons are identity tests
against a numpy bool scalar and never fire at runtime, so the appended
`_show_meshes` entries are always `True`. -/
def editShape (l : ShapesLayer) (index : Nat) (verts : List Pt) :
    Except String ShapesLayer :=
  let object_type := l.data.objects.getD (l.data.id.getD index 0) ""
  if object_type = "ellipse" then .ok l
  else
    let l1 := removeOneShapeLayer l index false
    let upd : Except String ShapesLayer :=
      if object_type = "line" then
        .ok { l1 with data := l1.data.addShapeMesh verts index true }
      else if object_type = "rectangle" then
        .ok { l1 with data :=
          ({ l1.data with
             id := l1.data.id.set index (firstIdxStr l1.data.objects "polygon")
           }).addShapeMesh verts index true }
      else if object_type = "path" then
        .ok { l1 with data := l1.data.addShapeMesh verts index false }
      else if object_type = "polygon" then
        .ok { l1 with data := l1.data.addShapeMesh verts index true }
      else .error "Object type not recongnized"
    match upd with
    | .error e => .error e
    | .ok l2 =>
      let new_faces := (l2.data.mesh_faces_index.filter (fun t => t.1 == index)).length
      let newRows := l2.data.mesh_faces_index.drop
        (l2.data.mesh_faces_index.length - new_faces)
      let ec := l2.edge_color_array.getD index (0, 0, 0, 1)
      let fc := l2.face_color_array.getD index (1, 1, 1, 1)
      let color_array := newRows.map (fun t => if t.2.2 == 0 then fc else ec)
      let l3 := { l2 with
        face_counts := l2.face_counts.set index new_faces,
        show_meshes := l2.show_meshes ++ List.replicate new_faces true,
        mesh_color_array := l2.mesh_color_array ++ color_array }
      setZOrder l3 l3.z_order

/-- C8: editing the vertices of a shape whose kind is `ellipse` raises no
error and is a silent no-op: the returned layer is the input layer, every
field (shape data, mesh buffers, colors, z-order, selection) identical. -/
theorem edit_shape_ellipse_noop (l : ShapesLayer) (i : Nat) (verts : List Pt)
    (h : l.data.objects.getD (l.data.id.getD i 0) "" = "ellipse") :
    editShape l i verts = .ok l := by
  simp only [editShape]
  rw [h]
  simp

/-- Concrete layer holding one ellipse shape, for the C8 witness. -/
def exampleLayerEllipse : ShapesLayer :=
  { data :=
      { objects := ["line", "path", "polygon", "rectangle", "ellipse"],
        id := [4],
        vertices := [(0, 0), (8, 6)],
        index := [0, 0],
        thickness := [1],
        mesh_vertices := [(0, 0), (8, 0), (0, 6)],
        mesh_faces := [(0, 1, 2)],
        mesh_faces_index := [(0, 0, 0)],
        selected_box := none },
    show_meshes := [true],
    show_objects := [(true, true)],
    mesh_color_array := [(1, 1, 1, 1)],
    face_color_array := [(1, 1, 1, 1)],
    edge_color_array := [(0, 0, 0, 1)],
    face_counts := [1],
    z_order := [0],
    z_order_faces := [0],
    vertex_size := 10,
    selected_shapes := [],
    selected_shapes_stored := [],
    hover_shapes := (none, none),
    hover_shapes_stored := (none, none),
    highlight := true,
    mode := "direct",
    cursor := "pointing",
    interactive := false,
    help := "hold <space> to pan/zoom",
    status := "direct" }

/-- Witness for C8 at a concrete ellipse edit. -/
theorem edit_shape_ellipse_noop_witness :
    exampleLayerEllipse.data.objects.getD
        (exampleLayerEllipse.data.id.getD 0 0) "" = "ellipse" ∧
    editShape exampleLayerEllipse 0 [(1, 1), (2, 2), (3, 1)] =
      .ok exampleLayerEllipse :=
  ⟨by decide,
    edit_shape_ellipse_noop exampleLayerEllipse 0 [(1, 1), (2, 2), (3, 1)] (by decide)⟩

/-- Concrete layer used by witnesses: three one-triangle polygon shapes
(the spec §8 scenario has three shapes with `z_order = [2, 0, 1]`). -/
def exampleLayer3 : ShapesLayer :=
  { data :=
      { objects := ["line", "path", "polygon", "rectangle", "ellipse"],
        id := [2, 2, 2],
        vertices := [(0, 0), (4, 0), (0, 4), (10, 10), (14, 10), (10, 14),
                     (20, 20), (24, 20), (20, 24)],
        index := [0, 0, 0, 1, 1, 1, 2, 2, 2],
        thickness := [1, 1, 1],
        mesh_vertices := [(0, 0), (4, 0), (0, 4), (10, 10), (14, 10), (10, 14),
                          (20, 20), (24, 20), (20, 24)],
        mesh_faces := [(0, 1, 2), (3, 4, 5), (6, 7, 8)],
        mesh_faces_index := [(0, 0, 0), (1, 0, 0), (2, 0, 0)],
        selected_box := none },
    show_meshes := [true, true, true],
    show_objects := [(true, true), (true, true), (true, true)],
    mesh_color_array := [(1, 1, 1, 1), (1, 1, 1, 1), (1, 1, 1, 1)],
    face_color_array := [(1, 1, 1, 1), (1, 1, 1, 1), (1, 1, 1, 1)],
    edge_color_array := [(0, 0, 0, 1), (0, 0, 0, 1), (0, 0, 0, 1)],
    face_counts := [1, 1, 1],
    z_order := [2, 0, 1],
    z_order_faces := [2, 0, 1],
    vertex_size := 10,
    selected_shapes := [],
    selected_shapes_stored := [],
    hover_shapes := (none, none),
    hover_shapes_stored := (none, none),
    highlight := true,
    mode := "select",
    cursor := "pointing",
    interactive := false,
    help := "hold <space> to pan/zoom",
    status := "select" }

/-- Witness for C2 at a concrete layer and candidate order. -/
theorem z_order_setter_validates_witness :
    MeshContig exampleLayer3 ∧
    ((¬ ([1, 2, 0] : List Nat).Perm (List.range exampleLayer3.data.count) →
        setZOrder exampleLayer3 [1, 2, 0] = .error "z_order is not permutation") ∧
     (([1, 2, 0] : List Nat).Perm (List.range exampleLayer3.data.count) →
        ∃ zf, setZOrder exampleLayer3 [1, 2, 0] =
          .ok { exampleLayer3 with z_order := [1, 2, 0], z_order_faces := zf })) :=
  ⟨by decide, z_order_setter_validates exampleLayer3 [1, 2, 0] (by decide)⟩

/-- C3: evaluation of `remove_shapes` at the failing input.  The layer holds
three shapes with `z_order = [2, 0, 1]`; the claim (and the spec §8
delete-renumbering scenario) demands that `remove_shapes(1)` leave two shapes
with `z_order` a permutation of `\x7b0, 1\x7d`.  But model.py line 315 tests
`if index==True:` and the Python integer 1 compares equal to `True`, so the
call takes the remove-all branch: every shape is removed and `z_order`
becomes empty.  Every other in-range index behaves as claimed, as the third
conjunct shows for index 0. -/
theorem remove_shapes_one_removes_all :
    exampleLayer3.data.count = 3 ∧
    (removeShapesInt exampleLayer3 1).map
      (fun l2 => (l2.data.count, l2.z_order)) = .ok (0, []) ∧
    (removeShapesInt exampleLayer3 0).map
      (fun l2 => (l2.data.count, l2.z_order)) = .ok (2, [1, 0]) :=
  ⟨rfl, rfl, rfl⟩

/-- The `_slice_boxes` method of `Rectangles` (gui/layers/_rectangles_layer.py
lines 201-221) and of `Box` (gui/layers/_box_layer.py lines 185-205): a stored
two-corner N-D box matches the current slice when the trailing (axis index
at least 2) coordinates of both corners equal the slice indices on those axes;
the matching boxes, restricted to their two leading coordinates, form the
visible set.  The numpy elementwise `np.equal` followed by `np.all` over the
corner and trailing axes is, for boxes of the indices' dimension, equality of
the dropped-prefix coordinate lists. -/
def slice_boxes (coords : List (List ℚ × List ℚ)) (indices : List ℚ) :
    List (List ℚ × List ℚ) × List Bool :=
  if coords.isEmpty then ([], [])
  else
    let matchList := coords.map (fun box =>
      (box.1.drop 2 == indices.drop 2) && (box.2.drop 2 == indices.drop 2))
    ((maskFilter coords matchList).map (fun box => (box.1.take 2, box.2.take 2)), matchList)

theorem getD_drop {α : Type} (l : List α) (n m : Nat) (d : α) :
    (l.drop n).getD m d = l.getD (n + m) d := by
  induction n generalizing l with
  | zero => simp
  | succ k ih =>
    cases l with
    | nil => simp
    | cons x t =>
      have hkm : k + 1 + m = (k + m) + 1 := by omega
      rw [List.drop_succ_cons, ih t, hkm, List.getD_cons_succ]

theorem drop_eq_iff_getD {a b : List ℚ} (hab : a.length = b.length) :
    a.drop 2 = b.drop 2 ↔
      ∀ j, 2 ≤ j → j < b.length → a.getD j 0 = b.getD j 0 := by
  constructor
  · intro h j h2 hj
    have e1 : a.getD j 0 = (a.drop 2).getD (j - 2) 0 := by
      rw [getD_drop]; congr 1; omega
    have e2 : b.getD j 0 = (b.drop 2).getD (j - 2) 0 := by
      rw [getD_drop]; congr 1; omega
    rw [e1, e2, h]
  · intro h
    apply List.ext_getElem (by simp [hab])
    intro n h1 h2
    rw [List.getElem_drop, List.getElem_drop]
    have hn : 2 + n < b.length := by
      simp [List.length_drop] at h2; omega
    have hna : 2 + n < a.length := by omega
    have hj := h (2 + n) (by omega) hn
    rw [List.getD_eq_getElem a 0 hna, List.getD_eq_getElem b 0 hn] at hj
    exact hj

/-- C6: the view-slice computation selects a stored two-corner N-D box if and
only if every non-displayed-axis coordinate (axes with index at least 2) of
both corners exactly equals the corresponding slice index; any box differing
in any such coordinate has a `false` mask entry and is excluded from the
visible set. -/
theorem slice_boxes_visibility (coords : List (List ℚ × List ℚ)) (indices : List ℚ)
    (k : Nat) (hk : k < coords.length)
    (hlen : ∀ b ∈ coords, b.1.length = indices.length ∧ b.2.length = indices.length) :
    ((slice_boxes coords indices).2.getD k false = true ↔
      ∀ j, 2 ≤ j → j < indices.length →
        (coords.getD k ([], [])).1.getD j 0 = indices.getD j 0 ∧
        (coords.getD k ([], [])).2.getD j 0 = indices.getD j 0) := by
  have hne : coords.isEmpty = false := by
    cases coords
    · simp at hk
    · simp
  have hmask : (slice_boxes coords indices).2 = coords.map (fun box =>
      (box.1.drop 2 == indices.drop 2) && (box.2.drop 2 == indices.drop 2)) := by
    simp [slice_boxes, hne]
  have hkm : k < (coords.map (fun box =>
      (box.1.drop 2 == indices.drop 2) && (box.2.drop 2 == indices.drop 2))).length := by
    simpa using hk
  rw [hmask, List.getD_eq_getElem _ _ hkm, List.getElem_map]
  have hbk : coords.getD k ([], []) = coords[k] := List.getD_eq_getElem _ _ hk
  obtain ⟨h1, h2⟩ := hlen coords[k] (List.getElem_mem hk)
  rw [hbk]
  constructor
  · intro h j hj2 hjlen
    simp only [Bool.and_eq_true, beq_iff_eq] at h
    exact ⟨(drop_eq_iff_getD h1).mp h.1 j hj2 hjlen,
           (drop_eq_iff_getD h2).mp h.2 j hj2 hjlen⟩
  · intro h
    simp only [Bool.and_eq_true, beq_iff_eq]
    exact ⟨(drop_eq_iff_getD h1).mpr (fun j a b => (h j a b).1),
           (drop_eq_iff_getD h2).mpr (fun j a b => (h j a b).2)⟩

/-- Witness for C6: a 3-D box stored at plane index 2, sliced at plane
index 2 (the spec §8 slice-visibility scenario). -/
theorem slice_boxes_visibility_witness :
    0 < ([([0, 0, 2], [1, 1, 2]), ([0, 0, 3], [1, 1, 3])] :
        List (List ℚ × List ℚ)).length ∧
    (∀ b ∈ ([([0, 0, 2], [1, 1, 2]), ([0, 0, 3], [1, 1, 3])] :
        List (List ℚ × List ℚ)),
      b.1.length = ([9, 9, 2] : List ℚ).length ∧
      b.2.length = ([9, 9, 2] : List ℚ).length) ∧
    ((slice_boxes [([0, 0, 2], [1, 1, 2]), ([0, 0, 3], [1, 1, 3])]
        [9, 9, 2]).2.getD 0 false = true ↔
      ∀ j, 2 ≤ j → j < ([9, 9, 2] : List ℚ).length →
        (([([0, 0, 2], [1, 1, 2]), ([0, 0, 3], [1, 1, 3])] :
            List (List ℚ × List ℚ)).getD 0 ([], [])).1.getD j 0 =
          ([9, 9, 2] : List ℚ).getD j 0 ∧
        (([([0, 0, 2], [1, 1, 2]), ([0, 0, 3], [1, 1, 3])] :
            List (List ℚ × List ℚ)).getD 0 ([], [])).2.getD j 0 =
          ([9, 9, 2] : List ℚ).getD j 0) :=
  ⟨by decide, by decide,
    slice_boxes_visibility [([0, 0, 2], [1, 1, 2]), ([0, 0, 3], [1, 1, 3])]
      [9, 9, 2] 0 (by decide) (by decide)⟩


/-- The `Affine` transform class (transforms.py lines 221-312): an `n`-D
matrix `A` and offset vector `b`; `__call__` maps `x` to `A x + b`
(line 259-260). -/
structure Affine (n : Nat) where
  A : Matrix (Fin n) (Fin n) ℚ
  b : Fin n → ℚ

def Affine.call {n : Nat} (t : Affine n) (x : Fin n → ℚ) : Fin n → ℚ :=
  t.A.mulVec x + t.b

/-- The `Affine.inverse` property (transforms.py lines 292-295):
`Affine(A=inv(A), b=-inv(A) @ b)`.  `np.linalg.inv` is modelled by the
Mathlib matrix inverse, which agrees with it on invertible matrices (and
`np.linalg.inv` raises on the singular rest). -/
noncomputable def Affine.inverse {n : Nat} (t : Affine n) : Affine n :=
  { A := t.A⁻¹, b := -(t.A⁻¹.mulVec t.b) }

/-- C10: for an `Affine` whose matrix is invertible, `inverse` is the affine
map with matrix `A⁻¹` and offset `-A⁻¹ b`, and it is a two-sided inverse of
the transform on every coordinate vector. -/
theorem affine_inverse_roundtrip {n : Nat} (t : Affine n) (h : IsUnit t.A.det) :
    t.inverse.A = t.A⁻¹ ∧ t.inverse.b = -(t.A⁻¹.mulVec t.b) ∧
    ∀ x : Fin n → ℚ, t.inverse.call (t.call x) = x ∧ t.call (t.inverse.call x) = x := by
  refine ⟨rfl, rfl, fun x => ⟨?_, ?_⟩⟩
  · show t.A⁻¹.mulVec (t.A.mulVec x + t.b) + -(t.A⁻¹.mulVec t.b) = x
    rw [Matrix.mulVec_add, Matrix.mulVec_mulVec, Matrix.nonsing_inv_mul t.A h,
      Matrix.one_mulVec]
    abel
  · show t.A.mulVec (t.A⁻¹.mulVec x + -(t.A⁻¹.mulVec t.b)) + t.b = x
    rw [Matrix.mulVec_add, Matrix.mulVec_mulVec, Matrix.mul_nonsing_inv t.A h,
      Matrix.one_mulVec, Matrix.mulVec_neg, Matrix.mulVec_mulVec,
      Matrix.mul_nonsing_inv t.A h, Matrix.one_mulVec]
    abel

/-- An invertible concrete 2-D affine transform for the C10 witness. -/
def exampleAffine : Affine 2 :=
  { A := Matrix.of ![![2, 1], ![1, 1]], b := ![3, 4] }

/-- Witness for C10 at a concrete invertible transform. -/
theorem affine_inverse_roundtrip_witness :
    IsUnit exampleAffine.A.det ∧
    (exampleAffine.inverse.A = exampleAffine.A⁻¹ ∧
     exampleAffine.inverse.b = -(exampleAffine.A⁻¹.mulVec exampleAffine.b) ∧
     ∀ x : Fin 2 → ℚ, exampleAffine.inverse.call (exampleAffine.call x) = x ∧
       exampleAffine.call (exampleAffine.inverse.call x) = x) :=
  ⟨by norm_num [exampleAffine, Matrix.det_fin_two_of, isUnit_iff_ne_zero],
   affine_inverse_roundtrip exampleAffine
     (by norm_num [exampleAffine, Matrix.det_fin_two_of, isUnit_iff_ne_zero])⟩


/-- Vertex lookup in the mesh vertex buffer (numpy fancy indexing; the
indices produced by the mesh bookkeeping are in range on well-formed
states). -/
def vtxAt (d : ShapesData) (i : Nat) : Pt := d.mesh_vertices.getD i (0, 0)

/-- Componentwise closeness test of the handle hit test
(`np.all(abs(box - coord) <= vertex_size/2, axis=1)`). -/
def withinBox (p : Pt) (coord : Pt) (r : ℚ) : Bool :=
  (|p.1 - coord.1| ≤ r) && (|p.2 - coord.2| ≤ r)

/-- Owner of the first shape in z-order among the hit owners: the source
sorts the owners by their position in the z-order list (`np.argsort` of
`z_list.index(m)`) and takes element 0; equal sort keys belong to equal owner
values, so the result is the owner with the minimal z-order position,
realised as a left fold. -/
def earliestInZOrder (zorder : List Nat) (owners : List Nat) : Nat :=
  match owners with
  | [] => 0
  | x :: t => t.foldl (fun acc y =>
      if firstIdx zorder y < firstIdx zorder acc then y else acc) x

/-- The mesh fall-back of `Shapes._shape_at` (model.py lines 663-674): the
shown triangles are gathered through `mesh_faces[_show_meshes]`, the
containment mask is computed over them, and the unfiltered
`mesh_faces_index` is boolean-indexed with that mask
(`self.data._mesh_faces_index[inside_triangles(triangles - indices[:2])]`). -/
def shapeAtFallback (l : ShapesLayer) (coord : Pt) :
    Except String (Option Nat × Option Nat) :=
  let shownFaces := maskFilter l.data.mesh_faces l.show_meshes
  let mask := shownFaces.map (fun f =>
    originInTri (vtxAt l.data f.1 - coord) (vtxAt l.data f.2.1 - coord)
      (vtxAt l.data f.2.2 - coord))
  match npBoolIndex l.data.mesh_faces_index mask with
  | none => .error "IndexError: boolean index did not match indexed array"
  | some shapes =>
    if shapes.isEmpty then .ok (none, none)
    else .ok (some (earliestInZOrder l.z_order (shapes.map (fun t => t.1))), none)

/-- `Shapes._shape_at` (model.py lines 622-674): with a nonempty selection in
`select` mode the nine handle points (`selected_box[[0..7, 9]]`) are tested
within `vertex_size/2` and the last match returned; in `direct` mode the
selected shapes' raw vertices are tested likewise; otherwise, or when no
handle matches, the mesh fall-back runs. -/
def shape_at (l : ShapesLayer) (coord : Pt) :
    Except String (Option Nat × Option Nat) :=
  if l.selected_shapes.isEmpty then shapeAtFallback l coord
  else if l.mode = "select" then
    match l.data.selected_box with
    | none => .error "TypeError: selected_box is None"
    | some box =>
      let handlePts := [box.getD 0 (0, 0), box.getD 1 (0, 0), box.getD 2 (0, 0),
        box.getD 3 (0, 0), box.getD 4 (0, 0), box.getD 5 (0, 0),
        box.getD 6 (0, 0), box.getD 7 (0, 0), box.getD 9 (0, 0)]
      let matchList := (List.range 9).filter (fun v =>
        withinBox (handlePts.getD v (0, 0)) coord (l.vertex_size / 2))
      if matchList.isEmpty then shapeAtFallback l coord
      else .ok (some (l.selected_shapes.headD 0), some (matchList.getLastD 0))
  else if l.mode = "direct" then
    let inds := l.data.index.map (fun s => l.selected_shapes.contains s)
    let verts := maskFilter l.data.vertices inds
    let matchList := (List.range verts.length).filter (fun v =>
      withinBox (verts.getD v (0, 0)) coord (l.vertex_size / 2))
    if matchList.isEmpty then shapeAtFallback l coord
    else
      let globalIdxs := (List.range l.data.index.length).filter
        (fun k => inds.getD k false)
      let vindex := globalIdxs.getD (matchList.getLastD 0) 0
      let shape := l.data.index.getD vindex 0
      let idx := (npUniqueVals l.data.index).map (firstIdx l.data.index)
      .ok (some shape, some (vindex - idx.getD shape 0))
  else shapeAtFallback l coord

/-- `Shapes._shapes_in_box` (model.py lines 676-691): the drag box is
canonicalised by `_expand_box` and its opposite corners `[[0, 4]]` taken; for
each shown triangle and each vertex slot `i` of the three, the code tests
`box[1] >= triangles[:,0,:]` (vertex 0, not vertex `i`) conjoined with
`triangles[:,i,:] >= box[0]`; any slot passing marks the face; the unfiltered
`mesh_faces_index` is boolean-indexed with the mask and the owners are
deduplicated and sorted by `np.unique`. -/
def shapes_in_box (l : ShapesLayer) (box : Pt × Pt) : Except String (List Nat) :=
  let eb := expandBox9 box
  let bmin := eb.getD 0 (0, 0)
  let bmax := eb.getD 4 (0, 0)
  let pleq : Pt → Pt → Bool := fun p q => (p.1 ≤ q.1) && (p.2 ≤ q.2)
  let shownFaces := maskFilter l.data.mesh_faces l.show_meshes
  let mask := shownFaces.map (fun f =>
    let v0 := vtxAt l.data f.1
    let v1 := vtxAt l.data f.2.1
    let v2 := vtxAt l.data f.2.2
    (pleq v0 bmax && pleq bmin v0) || (pleq v0 bmax && pleq bmin v1) ||
      (pleq v0 bmax && pleq bmin v2))
  match npBoolIndex l.data.mesh_faces_index mask with
  | none => .error "IndexError: boolean index did not match indexed array"
  | some rows => .ok (npUniqueVals (rows.map (fun t => t.1)))

/-- Concrete layer for the C1 failing input: two one-triangle shapes, the
face of shape 0 hidden, empty selection. -/
def exampleLayerHidden : ShapesLayer :=
  { data :=
      { objects := ["line", "path", "polygon", "rectangle", "ellipse"],
        id := [2, 2],
        vertices := [(0, 0), (4, 0), (0, 4), (10, 10), (14, 10), (10, 14)],
        index := [0, 0, 0, 1, 1, 1],
        thickness := [1, 1],
        mesh_vertices := [(0, 0), (4, 0), (0, 4), (10, 10), (14, 10), (10, 14)],
        mesh_faces := [(0, 1, 2), (3, 4, 5)],
        mesh_faces_index := [(0, 0, 0), (1, 0, 0)],
        selected_box := none },
    show_meshes := [false, true],
    show_objects := [(false, false), (true, true)],
    mesh_color_array := [(1, 1, 1, 1), (1, 1, 1, 1)],
    face_color_array := [(1, 1, 1, 1), (1, 1, 1, 1)],
    edge_color_array := [(0, 0, 0, 1), (0, 0, 0, 1)],
    face_counts := [1, 1],
    z_order := [0, 1],
    z_order_faces := [0, 1],
    vertex_size := 10,
    selected_shapes := [],
    selected_shapes_stored := [],
    hover_shapes := (none, none),
    hover_shapes_stored := (none, none),
    highlight := true,
    mode := "select",
    cursor := "pointing",
    interactive := false,
    help := "hold <space> to pan/zoom",
    status := "select" }

/-- C1: evaluation of `_shape_at` at the failing input.  The selection is
empty so no handle test applies; the pointer (11, 11) lies strictly inside
shape 1's triangle, whose face is shown, so the claim demands `[1, None]`.
The code instead computes the containment mask over only the shown triangles
but indexes the full `mesh_faces_index` with it; with shape 0's face hidden
the lengths differ and the hit test raises `IndexError`. -/
theorem shape_at_hidden_face_raises :
    exampleLayerHidden.selected_shapes = [] ∧
    exampleLayerHidden.show_meshes = [false, true] ∧
    originInTri (((10 : ℚ), (10 : ℚ)) - (11, 11)) (((14 : ℚ), (10 : ℚ)) - (11, 11))
      (((10 : ℚ), (14 : ℚ)) - (11, 11)) = true ∧
    shape_at exampleLayerHidden (11, 11) =
      .error "IndexError: boolean index did not match indexed array" := by
  refine ⟨rfl, rfl, ?_, ?_⟩
  · norm_num [originInTri, Prod.sub_def]
  · norm_num [shape_at, shapeAtFallback, exampleLayerHidden, maskFilter,
      npBoolIndex, vtxAt, originInTri, Prod.sub_def]

/-- Concrete layer for the C5 failing input: one polygon whose single
triangle has all vertices far outside the box (40,40)-(60,60), every face
shown. -/
def exampleLayerBigTri : ShapesLayer :=
  { data :=
      { objects := ["line", "path", "polygon", "rectangle", "ellipse"],
        id := [2],
        vertices := [(0, 0), (100, 100), (0, 100)],
        index := [0, 0, 0],
        thickness := [1],
        mesh_vertices := [(0, 0), (100, 100), (0, 100)],
        mesh_faces := [(0, 1, 2)],
        mesh_faces_index := [(0, 0, 0)],
        selected_box := none },
    show_meshes := [true],
    show_objects := [(true, true)],
    mesh_color_array := [(1, 1, 1, 1)],
    face_color_array := [(1, 1, 1, 1)],
    edge_color_array := [(0, 0, 0, 1)],
    face_counts := [1],
    z_order := [0],
    z_order_faces := [0],
    vertex_size := 10,
    selected_shapes := [],
    selected_shapes_stored := [],
    hover_shapes := (none, none),
    hover_shapes_stored := (none, none),
    highlight := true,
    mode := "select",
    cursor := "pointing",
    interactive := false,
    help := "hold <space> to pan/zoom",
    status := "select" }

/-- C5: evaluation of `_shapes_in_box` at the failing input.  No vertex of
the (entirely visible) mesh lies inside the axis-aligned box
(40,40)-(60,60), so the claim demands the empty index list; because the test
compares `box[1]` against vertex 0 instead of vertex `i`, vertex slot 1
passes (vertex 0 is below-left of the box maximum and vertex 1 above-right
of the box minimum) and shape 0 is reported. -/
theorem shapes_in_box_wrong_vertex :
    (∀ p ∈ exampleLayerBigTri.data.mesh_vertices,
      ¬ ((40 : ℚ) ≤ p.1 ∧ p.1 ≤ 60 ∧ (40 : ℚ) ≤ p.2 ∧ p.2 ≤ 60)) ∧
    exampleLayerBigTri.show_meshes = [true] ∧
    shapes_in_box exampleLayerBigTri ((40, 40), (60, 60)) = .ok [0] := by
  refine ⟨?_, rfl, ?_⟩
  · intro p hp
    simp only [exampleLayerBigTri, List.mem_cons, List.not_mem_nil, or_false] at hp
    rcases hp with rfl | rfl | rfl <;> norm_num
  · norm_num [shapes_in_box, exampleLayerBigTri, expandBox9, maskFilter,
      npBoolIndex, vtxAt, npUniqueVals, firstIdx, min_def, max_def]
    decide


/-- A 2x2 real matrix `[[a, b], [c, d]]`: the two-dimensional case of the
numpy arrays of `transform_utils.py`, with machine floats modelled by `ℝ`. -/
structure Mat2 where
  a : ℝ
  b : ℝ
  c : ℝ
  d : ℝ

/-- Matrix product (`@`). -/
noncomputable def Mat2.mul (m n : Mat2) : Mat2 :=
  ⟨m.a * n.a + m.b * n.c, m.a * n.b + m.b * n.d,
   m.c * n.a + m.d * n.c, m.c * n.b + m.d * n.d⟩

/-- Matrix transpose. -/
def Mat2.transpose (m : Mat2) : Mat2 := ⟨m.a, m.c, m.b, m.d⟩

/-- The scalar-rotation branch of `compose_linear_matrix`
(transform_utils.py lines 30-41 and 83-107) in two dimensions: the rotation
matrix is built from the angle (converted from degrees when `degrees` is
set), flipped to numpy coordinates (`rotation_mat[::-1, ::-1]`), and
multiplied with the scale diagonal and the scalar-shear matrix
(`shear_mat[0, -1] = shear`): the result is `rotation @ scale @ shear`. -/
noncomputable def compose_linear_matrix2 (rotation sx sy shear : ℝ)
    (degrees : Bool) : Mat2 :=
  let t := if degrees then rotation * Real.pi / 180 else rotation
  let R : Mat2 := ⟨Real.cos t, Real.sin t, -Real.sin t, Real.cos t⟩
  let S : Mat2 := ⟨sx, 0, 0, sy⟩
  let Sh : Mat2 := ⟨1, shear, 0, 1⟩
  (R.mul S).mul Sh

/-- The matrix-rotation / length-one-shear-vector branch of
`compose_linear_matrix` (lines 78-80 and 89-98), the branch taken when the
output of `decompose_linear_matrix` is recomposed: the rotation matrix is
used as passed and the single shear value fills `shear_mat[0, -1]`. -/
noncomputable def compose_from_matrix2 (R : Mat2) (sx sy k : ℝ) : Mat2 :=
  (R.mul ⟨sx, 0, 0, sy⟩).mul ⟨1, k, 0, 1⟩

/-- `np.linalg.cholesky(m).T` for a 2x2 symmetric positive-definite `m` (the
unique lower factor with positive diagonal, transposed): from
`L₀₀ = √m₀₀`, `L₁₀ = m₁₀/L₀₀`, `L₁₁ = √(m₁₁ - L₁₀²)`. -/
noncomputable def choleskyT2 (m : Mat2) : Mat2 :=
  let l00 := Real.sqrt m.a
  let l10 := m.c / l00
  let l11 := Real.sqrt (m.d - l10 ^ 2)
  ⟨l00, l10, 0, l11⟩

/-- `np.linalg.inv` on a 2x2 matrix (the exact inverse). -/
noncomputable def inv2 (m : Mat2) : Mat2 :=
  let dt := m.a * m.d - m.b * m.c
  ⟨m.d / dt, -m.b / dt, -m.c / dt, m.a / dt⟩

/-- `decompose_linear_matrix` (transform_utils.py lines 164-206) in two
dimensions: `upper = cholesky(MᵀM)ᵀ`, `scale = diag(upper)`, the normalised
factor divides each row of `upper` by its scale entry,
`rotation = M @ inv(upper)`; when the rotation determinant is negative the
sign of `scale[0]` and of the first row of `upper` is flipped and the
rotation recomputed; the returned shear is the off-diagonal entry of the
(pre-flip) normalised factor. -/
noncomputable def decompose_linear_matrix2 (m : Mat2) : Mat2 × (ℝ × ℝ) × ℝ :=
  let upper := choleskyT2 ((Mat2.transpose m).mul m)
  let scale : ℝ × ℝ := (upper.a, upper.d)
  let upperNorm : Mat2 := ⟨upper.a / scale.1, upper.b / scale.1,
    upper.c / scale.2, upper.d / scale.2⟩
  let rotation := m.mul (inv2 upper)
  if rotation.a * rotation.d - rotation.b * rotation.c < 0 then
    let upper2 : Mat2 := ⟨-upper.a, -upper.b, upper.c, upper.d⟩
    (m.mul (inv2 upper2), (-scale.1, scale.2), upperNorm.b)
  else (rotation, scale, upperNorm.b)

theorem roundtrip_core (c s sx sy k : ℝ) (hx : 0 < sx) (hy : 0 < sy)
    (hcs : c ^ 2 + s ^ 2 = 1) :
    compose_from_matrix2
        (decompose_linear_matrix2 ((Mat2.mul ⟨c, s, -s, c⟩ ⟨sx, 0, 0, sy⟩).mul ⟨1, k, 0, 1⟩)).1
        (decompose_linear_matrix2 ((Mat2.mul ⟨c, s, -s, c⟩ ⟨sx, 0, 0, sy⟩).mul ⟨1, k, 0, 1⟩)).2.1.1
        (decompose_linear_matrix2 ((Mat2.mul ⟨c, s, -s, c⟩ ⟨sx, 0, 0, sy⟩).mul ⟨1, k, 0, 1⟩)).2.1.2
        (decompose_linear_matrix2 ((Mat2.mul ⟨c, s, -s, c⟩ ⟨sx, 0, 0, sy⟩).mul ⟨1, k, 0, 1⟩)).2.2
      = (Mat2.mul ⟨c, s, -s, c⟩ ⟨sx, 0, 0, sy⟩).mul ⟨1, k, 0, 1⟩ := by
  have hsx : sx ≠ 0 := ne_of_gt hx
  have hsy : sy ≠ 0 := ne_of_gt hy
  have hM : (Mat2.mul (⟨c, s, -s, c⟩ : Mat2) ⟨sx, 0, 0, sy⟩).mul ⟨1, k, 0, 1⟩
      = ⟨c * sx, c * sx * k + s * sy, -(s * sx), -(s * sx) * k + c * sy⟩ := by
    simp only [Mat2.mul, Mat2.mk.injEq]
    refine ⟨by ring, by ring, by ring, by ring⟩
  have hMTM : (Mat2.transpose ⟨c * sx, c * sx * k + s * sy, -(s * sx), -(s * sx) * k + c * sy⟩).mul
        ⟨c * sx, c * sx * k + s * sy, -(s * sx), -(s * sx) * k + c * sy⟩
      = ⟨sx ^ 2, sx ^ 2 * k, sx ^ 2 * k, sx ^ 2 * k ^ 2 + sy ^ 2⟩ := by
    simp only [Mat2.transpose, Mat2.mul, Mat2.mk.injEq]
    refine ⟨by linear_combination sx ^ 2 * hcs, by linear_combination sx ^ 2 * k * hcs,
      by linear_combination sx ^ 2 * k * hcs,
      by linear_combination (sx ^ 2 * k ^ 2 + sy ^ 2) * hcs⟩
  have hchol : choleskyT2 ⟨sx ^ 2, sx ^ 2 * k, sx ^ 2 * k, sx ^ 2 * k ^ 2 + sy ^ 2⟩
      = ⟨sx, sx * k, 0, sy⟩ := by
    have hs1 : Real.sqrt (sx ^ 2) = sx := Real.sqrt_sq hx.le
    simp only [choleskyT2, hs1]
    have hb : sx ^ 2 * k / sx = sx * k := by
      field_simp
      ring
    rw [hb]
    have h2 : sx ^ 2 * k ^ 2 + sy ^ 2 - (sx * k) ^ 2 = sy ^ 2 := by ring
    rw [h2, Real.sqrt_sq hy.le]
  have hrot : (⟨c * sx, c * sx * k + s * sy, -(s * sx), -(s * sx) * k + c * sy⟩ : Mat2).mul
        (inv2 ⟨sx, sx * k, 0, sy⟩) = ⟨c, s, -s, c⟩ := by
    simp only [inv2, Mat2.mul, Mat2.mk.injEq]
    refine ⟨?_, ?_, ?_, ?_⟩ <;> field_simp <;> ring
  have hdet : ¬ ((⟨c, s, -s, c⟩ : Mat2).a * (⟨c, s, -s, c⟩ : Mat2).d -
      (⟨c, s, -s, c⟩ : Mat2).b * (⟨c, s, -s, c⟩ : Mat2).c < 0) := by
    have h1 : (⟨c, s, -s, c⟩ : Mat2).a * (⟨c, s, -s, c⟩ : Mat2).d -
        (⟨c, s, -s, c⟩ : Mat2).b * (⟨c, s, -s, c⟩ : Mat2).c = 1 := by
      show c * c - s * -s = 1
      linear_combination hcs
    rw [h1]
    norm_num
  have hdec : decompose_linear_matrix2
        ((Mat2.mul ⟨c, s, -s, c⟩ ⟨sx, 0, 0, sy⟩).mul ⟨1, k, 0, 1⟩)
      = (⟨c, s, -s, c⟩, (sx, sy), k) := by
    rw [hM]
    simp only [decompose_linear_matrix2]
    rw [hMTM, hchol, hrot]
    rw [if_neg hdet]
    have hk : sx * k / sx = k := by field_simp
    simp [hk]
  rw [hdec]
  show (Mat2.mul ⟨c, s, -s, c⟩ ⟨sx, 0, 0, sy⟩).mul ⟨1, k, 0, 1⟩
    = (Mat2.mul ⟨c, s, -s, c⟩ ⟨sx, 0, 0, sy⟩).mul ⟨1, k, 0, 1⟩
  rfl

/-- C4: for every rotation angle, positive scale pair and scalar shear, the
decomposition of the composed linear matrix recomposes (matrix rotation,
scale vector, shear vector fed back into `compose_linear_matrix`) to exactly
the originally composed matrix. -/
theorem compose_decompose_roundtrip (t sx sy k : ℝ) (hx : 0 < sx) (hy : 0 < sy) :
    compose_from_matrix2
        (decompose_linear_matrix2 (compose_linear_matrix2 t sx sy k true)).1
        (decompose_linear_matrix2 (compose_linear_matrix2 t sx sy k true)).2.1.1
        (decompose_linear_matrix2 (compose_linear_matrix2 t sx sy k true)).2.1.2
        (decompose_linear_matrix2 (compose_linear_matrix2 t sx sy k true)).2.2
      = compose_linear_matrix2 t sx sy k true := by
  have hC : compose_linear_matrix2 t sx sy k true
      = (Mat2.mul ⟨Real.cos (t * Real.pi / 180), Real.sin (t * Real.pi / 180),
          -Real.sin (t * Real.pi / 180), Real.cos (t * Real.pi / 180)⟩
          ⟨sx, 0, 0, sy⟩).mul ⟨1, k, 0, 1⟩ := by
    simp only [compose_linear_matrix2, if_true]
  rw [hC]
  exact roundtrip_core (Real.cos (t * Real.pi / 180)) (Real.sin (t * Real.pi / 180))
    sx sy k hx hy (Real.cos_sq_add_sin_sq (t * Real.pi / 180))

/-- Witness for C4 at a concrete rotation, scale and shear. -/
theorem compose_decompose_roundtrip_witness :
    (0 : ℝ) < 1 ∧ (0 : ℝ) < 2 ∧
    compose_from_matrix2
        (decompose_linear_matrix2 (compose_linear_matrix2 30 1 2 5 true)).1
        (decompose_linear_matrix2 (compose_linear_matrix2 30 1 2 5 true)).2.1.1
        (decompose_linear_matrix2 (compose_linear_matrix2 30 1 2 5 true)).2.1.2
        (decompose_linear_matrix2 (compose_linear_matrix2 30 1 2 5 true)).2.2
      = compose_linear_matrix2 30 1 2 5 true :=
  ⟨by norm_num, by norm_num,
    compose_decompose_roundtrip 30 1 2 5 (by norm_num) (by norm_num)⟩

/-- C9: setting `layer.mode` to the value it already holds is a complete
no-op: the setter returns immediately with the layer unchanged and no events
emitted, so the current selection (and every other field) survives. -/
theorem setMode_same_mode_noop (l : ShapesLayer) :
    setMode l l.mode = .ok (l, []) := by
  simp [setMode]

/-- C7: `get_message` returns the integer coordinates printed in swapped
order (`coord[1]` then `coord[0]`, then the remaining slice indices), the
layer name, then `, shape i` exactly when the shape hit is not `None`, and
additionally `, vertex j` exactly when the vertex hit is also not `None`. -/
theorem get_message_spec (name : String) (coord : List ℚ) (h : 2 ≤ coord.length)
    (value : Option Nat × Option Nat) :
    get_message name coord value =
      npIntArrayToString ([pyInt (coord.getD 1 0), pyInt (coord.getD 0 0)]
          ++ (coord.drop 2).map pyInt) ++ ", " ++ name ++
        (match value with
         | (none, _) => ""
         | (some s, none) => ", shape " ++ toString s
         | (some s, some j) => ", shape " ++ toString s ++ ", vertex " ++ toString j) := by
  match coord, h with
  | a :: b :: t, _ =>
    rcases value with ⟨_ | s, _ | j⟩ <;>
      simp [get_message, pyInt_intCast, String.append_assoc]

/-- Witness for C7 at a concrete input. -/
theorem get_message_spec_witness :
    2 ≤ ([(25 : ℚ)/2, 7, 3] : List ℚ).length ∧
      get_message "shapes-layer" [(25 : ℚ)/2, 7, 3] (some 4, some 1) =
        npIntArrayToString ([pyInt (([(25 : ℚ)/2, 7, 3] : List ℚ).getD 1 0),
            pyInt (([(25 : ℚ)/2, 7, 3] : List ℚ).getD 0 0)]
            ++ (([(25 : ℚ)/2, 7, 3] : List ℚ).drop 2).map pyInt) ++ ", " ++ "shapes-layer" ++
          (match ((some 4, some 1) : Option Nat × Option Nat) with
           | (none, _) => ""
           | (some s, none) => ", shape " ++ toString s
           | (some s, some j) => ", shape " ++ toString s ++ ", vertex " ++ toString j) :=
  ⟨by decide, get_message_spec "shapes-layer" [(25 : ℚ)/2, 7, 3] (by decide) (some 4, some 1)⟩

end NapariSpec
